import Mathlib

/-!
Shallow embedding of the AutoDashAI front-end client logic:
the result-rendering dispatcher and tabular export of
`FileToTableConverter` (src/unnamed/part_000), the dashboard chat loop,
insight request and KPI badge of `Dashboard.jsx`, and the chat submit
guard of `ChatInterface.jsx`. Machine-level JS details (DOM, fetch) are
abstracted into explicit outcome values; every state mutation the
components perform is modelled as an explicit transition.
-/

namespace AutoDashAI

/-- A JSON scalar value as it appears in preview cells. -/
inductive JValue where
  | null
  | str (s : String)
  | num (n : Int)
  | boolean (b : Bool)
deriving DecidableEq, Repr

/-- A preview row: a JS object, i.e. an ordered association list of
key/value pairs (JS `Object.keys` returns string keys in insertion
order, which the list order models). -/
def PreviewRow : Type := List (String × JValue)

instance : DecidableEq PreviewRow := by
  unfold PreviewRow
  infer_instance

/-- Per-file backend outcome record, as consumed by the renderer in
`FileToTableConverter` (fields `success`, `has_structured_data`,
`has_text_content`, `rows`, `columns`, `preview`, `text_content`,
`error`). The `preview` field may be absent in the JSON, hence
`Option`. -/
structure FileResult where
  success : Bool
  has_structured_data : Bool
  has_text_content : Bool
  rows : Nat
  columns : List String
  preview : Option (List PreviewRow)
  text_content : String
  error : String
deriving DecidableEq

/-- One rendered section of a per-file result card. -/
inductive RSection where
  | errorBox (message : String)
  | statsInfo
  | dataTable (headers : List String)
  | exportButtons
  | textBox (content : String)
  | emptyNotice
deriving DecidableEq, Repr

/-- The guard `result.preview && result.preview.length > 0` from the
renderer. -/
def previewNonEmpty (p : Option (List PreviewRow)) : Bool :=
  match p with
  | some rows => !rows.isEmpty
  | none => false

/-- `Object.keys(result.preview[0])`: the header list the rendered
table uses, the keys of the first preview row in order. -/
def firstRowKeys (p : Option (List PreviewRow)) : List String :=
  match p with
  | some (row :: _) => row.map Prod.fst
  | _ => []

/-- The conditional rendering of one result card in
`FileToTableConverter` (src/unnamed/part_000 lines 203-269): the four
JSX conditionals in source order, producing the list of sections that
appear on the card. -/
def renderFileResult (r : FileResult) : List RSection :=
  (if !r.success then [RSection.errorBox r.error] else []) ++
  (if r.success && r.has_structured_data then
      [RSection.statsInfo] ++
      (if previewNonEmpty r.preview then
          [RSection.dataTable (firstRowKeys r.preview)]
        else []) ++
      [RSection.exportButtons]
    else []) ++
  (if r.success && r.has_text_content && !r.has_structured_data then
      [RSection.textBox r.text_content]
    else []) ++
  (if r.success && !r.has_structured_data && !r.has_text_content then
      [RSection.emptyNotice]
    else [])

/-- JS `x || fallback` for a possibly-absent string `x`: absent and
the empty string are falsy. -/
def jsOrString (s : Option String) (fallback : String) : String :=
  match s with
  | some v => if v = "" then fallback else v
  | none => fallback

/-- The regex tail `[^/.]+$`: one or more characters, none a dot or a
slash, running to the end of the string. -/
def stripExtTailOk (cs : List Char) : Bool :=
  !cs.isEmpty && cs.all (fun c => !(c == '.') && !(c == '/'))

/-- `filename.replace(/\.[^/.]+$/, "")` on the character list: the
leftmost (hence, because the tail may contain no further dot, the
last) dot whose suffix is non-empty and free of dots and slashes is
removed together with that suffix. -/
def stripLastExtension : List Char → List Char
  | [] => []
  | c :: rest =>
    if (c == '.') && stripExtTailOk rest then []
    else c :: stripLastExtension rest

/-- `filename.replace(/\.[^/.]+$/, "")` from `handleDownload`. -/
def stripExt (s : String) : String :=
  String.mk (stripLastExtension s.data)

/-- The `filename` field of the `/download` payload:
`filename.replace(/\.[^/.]+$/, "") + "_extracted"`. -/
def downloadPayloadFilename (filename : String) : String :=
  stripExt filename ++ "_extracted"

/-- The anchor `download` attribute:
`payload.filename + (format === "csv" ? ".csv" : ".xlsx")`. -/
def downloadedFileName (filename : String) (format : String) : String :=
  downloadPayloadFilename filename ++ (if format = "csv" then ".csv" else ".xlsx")

/-- Outcome of the `/download` fetch as `handleDownload` observes it:
a 2xx response, a non-2xx response whose JSON body optionally carries
a `detail` string (`none` inside means the field is absent), or a
thrown error (network failure, or `res.json()` failing to parse). -/
inductive DownloadOutcome where
  | okResponse
  | httpError (status : Nat) (detail : Option String)
  | thrownError (message : String)
deriving DecidableEq

/-- The message of the error thrown on a non-2xx `/download` response:
`err.detail || "Download error: " + res.status`. -/
def downloadThrownMessage (status : Nat) (detail : Option String) : String :=
  jsOrString detail ("Download error: " ++ toString status)

/-- The error string `handleDownload` surfaces to the user via
`setError` — `"Download failed: " + err.message` — or `none` when the
download succeeds. -/
def handleDownloadSurface : DownloadOutcome → Option String
  | .okResponse => none
  | .httpError status detail =>
      some ("Download failed: " ++ downloadThrownMessage status detail)
  | .thrownError message =>
      some ("Download failed: " ++ message)

/-- Chat message role. -/
inductive Role where
  | user
  | assistant
deriving DecidableEq, Repr

/-- One chat transcript entry, shape `{role, content}`. -/
structure ChatMsg where
  role : Role
  content : String
deriving DecidableEq, Repr

/-- A chart definition as `ChartGrid` consumes it. -/
structure ChartSpec where
  id : Nat
  type : String
  title : String
  data : List PreviewRow
  dataKey : String
  xAxis : String
deriving DecidableEq

/-- A KPI card entry. The `change` field is `Option` because a JS
object may simply lack the field; the source reads `kpi.change`
without a guard. -/
structure KPI where
  title : String
  value : String
  change : Option String
deriving DecidableEq

/-- One insight entry of the insights modal. -/
structure Insight where
  title : String
  description : String
deriving DecidableEq

/-- The state held by the `Dashboard` component: the seven `useState`
hooks (`charts`, `kpis`, `messages`, `loading`, `insights`,
`showInsights`, `loadingInsights`). `kpis` has no setter in the
source. -/
structure DashState where
  charts : List ChartSpec
  kpis : List KPI
  messages : List ChatMsg
  loading : Bool
  insights : Option (List Insight)
  showInsights : Bool
  loadingInsights : Bool
deriving DecidableEq

/-- The individual state updates the `Dashboard` component performs:
each constructor is one `set*` call occurring somewhere in
`Dashboard.jsx`. The transcript is only ever written through
`setMessages(prev => [...prev, msg])`, which the two append events
model. -/
inductive DashEvent where
  | appendUser (text : String)
  | appendAssistant (content : String)
  | replaceCharts (cs : List ChartSpec)
  | setLoading (b : Bool)
  | setInsights (ins : List Insight)
  | setShowInsights (b : Bool)
  | setLoadingInsights (b : Bool)

/-- Effect of one state update on the dashboard state. -/
def dashStep : DashEvent → DashState → DashState
  | .appendUser text, st =>
      { st with messages := st.messages ++ [⟨Role.user, text⟩] }
  | .appendAssistant content, st =>
      { st with messages := st.messages ++ [⟨Role.assistant, content⟩] }
  | .replaceCharts cs, st => { st with charts := cs }
  | .setLoading b, st => { st with loading := b }
  | .setInsights ins, st => { st with insights := some ins }
  | .setShowInsights b, st => { st with showInsights := b }
  | .setLoadingInsights b, st => { st with loadingInsights := b }

/-- Outcome of the `/api/dashboard/chat` fetch as `handleSendMessage`
observes it: a parsed JSON response with its `success` flag, `charts`
and `reply` fields, or a thrown failure (network error or JSON parse
failure). -/
inductive ChatFetchOutcome where
  | response (success : Bool) (charts : List ChartSpec) (reply : String)
  | fetchFailure
deriving DecidableEq

/-- `handleSendMessage` of `Dashboard.jsx` (lines 24-57): append the
user turn optimistically and set `loading`; on `success` replace the
charts and append the assistant reply; on a failed response or a
thrown fetch append the corresponding fixed fallback assistant turn;
finally clear `loading`. The `catch` absorbs every failure, so the
function always returns a state — it never throws to its caller. -/
def handleSendMessage (text : String) (outcome : ChatFetchOutcome)
    (st : DashState) : DashState :=
  let st1 := dashStep (.setLoading true) (dashStep (.appendUser text) st)
  let st2 :=
    match outcome with
    | .response true cs reply =>
        dashStep (.appendAssistant reply) (dashStep (.replaceCharts cs) st1)
    | .response false _ _ =>
        dashStep (.appendAssistant "Sorry, I couldn't process that.") st1
    | .fetchFailure =>
        dashStep (.appendAssistant "Network error. Please try again.") st1
  dashStep (.setLoading false) st2

/-- Outcome of the `/api/dashboard/insights` fetch as
`handleGetInsights` observes it. For a non-2xx response, `jsonBody`
is the result of `response.json().catch(...)`: `none` when the body
is not JSON, otherwise `some detail?` with the optional `detail`
field. -/
inductive InsightsFetchOutcome where
  | httpError (jsonBody : Option (Option String))
  | okResponse (success : Bool) (insights : List Insight) (message : Option String)
  | fetchFailure (message : String)
deriving DecidableEq

/-- What `handleGetInsights` shows the user: the insights modal, or a
blocking `alert` with the given text. -/
inductive InsightSurface where
  | modal (ins : List Insight)
  | alertBox (text : String)
deriving DecidableEq

/-- `await response.json().catch(() => ({detail: "Server error"}))`:
the error body used on a non-2xx response. -/
def insightsErrorDetail (jsonBody : Option (Option String)) : Option String :=
  match jsonBody with
  | none => some "Server error"
  | some d => d

/-- The UI surface produced by `handleGetInsights` of `Dashboard.jsx`
(lines 85-110). On a non-2xx response it throws
`new Error(errorData.detail || "Failed to generate insights")`, which
the `catch` turns into `alert("Insight Error: " + error.message)`; on
a 2xx response with `success` it opens the modal, otherwise it alerts
`data.message || "Failed to get insights. Try again."`. -/
def handleGetInsights : InsightsFetchOutcome → InsightSurface
  | .httpError jsonBody =>
      .alertBox ("Insight Error: " ++
        jsOrString (insightsErrorDetail jsonBody) "Failed to generate insights")
  | .okResponse true ins _ => .modal ins
  | .okResponse false _ message =>
      .alertBox (jsOrString message "Failed to get insights. Try again.")
  | .fetchFailure message => .alertBox ("Insight Error: " ++ message)

/-- The KPI change badge class from the `Dashboard` JSX:
`kpi.change.includes('-') ? red classes : green classes`. When the
`change` field is absent, the member access throws a `TypeError`
during render — there is no guard in the source — modelled as
`none`. -/
def kpiBadgeClass : Option String → Option String
  | some change =>
      some (if change.contains '-' then "bg-red-50 text-red-600"
            else "bg-green-50 text-green-600")
  | none => none

/-- `handleSubmit` of `ChatInterface.jsx` (lines 16-22): dispatch the
input through `onSendMessage` and clear the field only when
`input.trim()` is non-empty and `loading` is false; otherwise do
nothing. Returns the dispatched message, if any, and the new input
field value. -/
def handleSubmit (input : String) (loading : Bool) : Option String × String :=
  if input.trim ≠ "" && !loading then (some input, "") else (none, input)

/-- The composite of a chat form submission with the dashboard chat
loop: `ChatInterface` receives the dashboard's `loading` state and
`handleSendMessage` as props, so a submit runs `handleSendMessage`
exactly when `handleSubmit` dispatches. -/
def submitChat (st : DashState) (input : String)
    (outcome : ChatFetchOutcome) : DashState × String :=
  match handleSubmit input st.loading with
  | (some text, newInput) => (handleSendMessage text outcome st, newInput)
  | (none, newInput) => (st, newInput)

/-! ## Theorems -/

/-- C2: the result-card dispatch is a strict priority order. When
`success` is false the card is exactly the error box and every data
section is suppressed; when `success`, `has_structured_data` and
`has_text_content` are all set, the structured sections render and
the text section does not; when `success` is true no error box ever
renders, so error and data sections are mutually exclusive. -/
theorem render_error_priority (r : FileResult) :
    (r.success = false → renderFileResult r = [RSection.errorBox r.error]) ∧
    (r.success = true → r.has_structured_data = true → r.has_text_content = true →
      RSection.statsInfo ∈ renderFileResult r ∧
      RSection.exportButtons ∈ renderFileResult r ∧
      ∀ t, RSection.textBox t ∉ renderFileResult r) ∧
    (r.success = true → ∀ m, RSection.errorBox m ∉ renderFileResult r) := by
  obtain ⟨succ, hsd, htc, rows, cols, prev, txt, err⟩ := r
  cases succ <;> cases hsd <;> cases htc <;>
    simp [renderFileResult]

theorem render_error_priority_witness :
    (RSection.statsInfo ∈ renderFileResult
        ⟨true, true, true, 1, ["a"], some [[("a", JValue.num 1)]], "txt", ""⟩ ∧
      RSection.exportButtons ∈ renderFileResult
        ⟨true, true, true, 1, ["a"], some [[("a", JValue.num 1)]], "txt", ""⟩ ∧
      ∀ t, RSection.textBox t ∉ renderFileResult
        ⟨true, true, true, 1, ["a"], some [[("a", JValue.num 1)]], "txt", ""⟩) ∧
    renderFileResult ⟨false, false, false, 0, [], none, "", "corrupt file"⟩
      = [RSection.errorBox "corrupt file"] :=
  ⟨(render_error_priority _).2.1 rfl rfl rfl, (render_error_priority _).1 rfl⟩

/-- C7: for a successful structured result, the rendered table's
header row is exactly the key list of the first preview row in its
original order, and that is the only table; when the preview is
absent or empty, no table renders at all. -/
theorem render_table_headers (r : FileResult)
    (hs : r.success = true) (hd : r.has_structured_data = true) :
    (∀ row rest, r.preview = some (row :: rest) →
      RSection.dataTable (row.map Prod.fst) ∈ renderFileResult r ∧
      ∀ hdr, RSection.dataTable hdr ∈ renderFileResult r →
        hdr = row.map Prod.fst) ∧
    ((r.preview = none ∨ r.preview = some []) →
      ∀ hdr, RSection.dataTable hdr ∉ renderFileResult r) := by
  obtain ⟨succ, hsd, htc, rows, cols, prev, txt, err⟩ := r
  simp only at hs hd
  subst hs hd
  constructor
  · rintro row rest rfl
    cases htc <;>
      simp [renderFileResult, previewNonEmpty, firstRowKeys]
  · rintro (rfl | rfl) hdr <;> cases htc <;>
      simp [renderFileResult, previewNonEmpty]

theorem render_table_headers_witness :
    RSection.dataTable ["a", "b"] ∈ renderFileResult
      ⟨true, true, false, 3, ["a", "b"],
        some [[("a", JValue.num 1), ("b", JValue.num 2)]], "", ""⟩ := by
  simpa using
    ((render_table_headers _ rfl rfl).1 [("a", JValue.num 1), ("b", JValue.num 2)] [] rfl).1

/-- C3: every chat turn appends the user message first, then — on a
successful response — replaces the whole chart list and appends the
assistant reply, and otherwise appends the matching fixed fallback
assistant message; the transcript always gains exactly two entries,
and `handleSendMessage` (a total function here, because the source's
`catch` absorbs every failure) always returns a state. -/
theorem sendMessage_transcript (text : String) (outcome : ChatFetchOutcome)
    (st : DashState) :
    (handleSendMessage text outcome st).messages.length
        = st.messages.length + 2 ∧
    (handleSendMessage text outcome st).messages.take (st.messages.length + 1)
        = st.messages ++ [⟨Role.user, text⟩] ∧
    (match outcome with
      | .response true cs reply =>
          (handleSendMessage text outcome st).charts = cs ∧
          (handleSendMessage text outcome st).messages
            = st.messages ++ [⟨Role.user, text⟩, ⟨Role.assistant, reply⟩]
      | .response false _ _ =>
          (handleSendMessage text outcome st).charts = st.charts ∧
          (handleSendMessage text outcome st).messages
            = st.messages ++ [⟨Role.user, text⟩,
                ⟨Role.assistant, "Sorry, I couldn't process that."⟩]
      | .fetchFailure =>
          (handleSendMessage text outcome st).charts = st.charts ∧
          (handleSendMessage text outcome st).messages
            = st.messages ++ [⟨Role.user, text⟩,
                ⟨Role.assistant, "Network error. Please try again."⟩]) := by
  rcases outcome with (⟨(_ | _), cs, reply⟩ | _) <;>
    simp [handleSendMessage, dashStep, List.take_append]

/-- C5: the chat loop never touches the KPI list — nor the insight
state — whatever the fetch outcome; only `charts`, `messages` and
`loading` may change. -/
theorem sendMessage_preserves_kpis (text : String)
    (outcome : ChatFetchOutcome) (st : DashState) :
    (handleSendMessage text outcome st).kpis = st.kpis ∧
    (handleSendMessage text outcome st).insights = st.insights ∧
    (handleSendMessage text outcome st).showInsights = st.showInsights ∧
    (handleSendMessage text outcome st).loadingInsights = st.loadingInsights := by
  rcases outcome with (⟨(_ | _), cs, reply⟩ | _) <;>
    simp [handleSendMessage, dashStep]

/-- C9: the transcript is append-only. Every individual state update
the dashboard view performs either leaves the message sequence
unchanged or extends it by exactly one entry at the end, so no
existing entry is ever removed, reordered or edited. -/
theorem dashStep_messages_append_only (e : DashEvent) (st : DashState) :
    (dashStep e st).messages = st.messages ∨
    ∃ m : ChatMsg, (dashStep e st).messages = st.messages ++ [m] := by
  cases e <;> simp [dashStep]

/-- C6: submitting the chat form while a request is pending
(`loading = true`), or with blank input (`input.trim()` empty), is a
no-op: nothing is dispatched, the dashboard state — including the
transcript — is unchanged, and the input field keeps its value. -/
theorem submit_noop_when_loading_or_blank (st : DashState) (input : String)
    (outcome : ChatFetchOutcome)
    (h : st.loading = true ∨ input.trim = "") :
    submitChat st input outcome = (st, input) := by
  rcases h with h | h <;>
    simp [submitChat, handleSubmit, h]

theorem submit_noop_witness :
    submitChat
      ⟨[], [], [⟨Role.user, "hi"⟩], true, none, false, false⟩
      "again" ChatFetchOutcome.fetchFailure
      = (⟨[], [], [⟨Role.user, "hi"⟩], true, none, false, false⟩, "again") :=
  submit_noop_when_loading_or_blank _ _ _ (Or.inl rfl)

/-- C10: the KPI change badge is classified red exactly when the
change string contains the character `-` anywhere, and green exactly
when it does not; a KPI with no `change` field is not handled (the
source dereferences `kpi.change` unguarded, modelled as `none`). -/
theorem kpi_badge_classification (c : String) :
    (kpiBadgeClass (some c) = some "bg-red-50 text-red-600" ↔ '-' ∈ c.data) ∧
    (kpiBadgeClass (some c) = some "bg-green-50 text-green-600" ↔ '-' ∉ c.data) ∧
    kpiBadgeClass none = none := by
  have hc : c.contains '-' = true ↔ '-' ∈ c.data :=
    String.contains_iff c '-'
  constructor
  · simp only [kpiBadgeClass, Option.some.injEq]
    rw [← hc]
    by_cases h : c.contains '-' <;> simp [h]
  · constructor
    · simp only [kpiBadgeClass, Option.some.injEq]
      rw [← hc]
      by_cases h : c.contains '-' <;> simp [h]
    · rfl

/-- C1 counterexample: on an HTTP 500 whose JSON body carries
`detail = "model timeout"`, the blocking alert shows
"Insight Error: model timeout" — a decorated variant — and not the
bare string "model timeout". -/
theorem insight_alert_decoration_cex :
    handleGetInsights (InsightsFetchOutcome.httpError (some (some "model timeout")))
      = InsightSurface.alertBox "Insight Error: model timeout" ∧
    InsightSurface.alertBox "Insight Error: model timeout"
      ≠ InsightSurface.alertBox "model timeout" := by
  exact ⟨rfl, by decide⟩

/-- C1 amended: on a non-2xx insight response whose JSON body carries
a non-empty `detail`, the blocking alert shows exactly
`"Insight Error: " ++ detail`. -/
theorem insight_alert_prefixed_detail (d : String) (hd : d ≠ "") :
    handleGetInsights (InsightsFetchOutcome.httpError (some (some d)))
      = InsightSurface.alertBox ("Insight Error: " ++ d) := by
  simp [handleGetInsights, insightsErrorDetail, jsOrString, hd]

theorem insight_alert_prefixed_detail_witness :
    handleGetInsights (InsightsFetchOutcome.httpError (some (some "model timeout")))
      = InsightSurface.alertBox ("Insight Error: " ++ "model timeout") :=
  insight_alert_prefixed_detail "model timeout" (by decide)

/-- C4 counterexample: on a non-2xx download response whose body
carries `detail = "disk full"`, the surfaced message is
"Download failed: disk full", not the bare detail string. -/
theorem download_error_decoration_cex :
    handleDownloadSurface (DownloadOutcome.httpError 500 (some "disk full"))
      = some "Download failed: disk full" ∧
    (some "Download failed: disk full" : Option String) ≠ some "disk full" := by
  exact ⟨rfl, by decide⟩

/-- C4 amended: the message surfaced on a non-2xx download response is
"Download failed: " followed by the backend's `detail` when the body
carries a non-empty one, and otherwise "Download failed: " followed by
the generic "Download error: <status>". -/
theorem download_error_surface (status : Nat) (d : String) (hd : d ≠ "") :
    handleDownloadSurface (DownloadOutcome.httpError status (some d))
      = some ("Download failed: " ++ d) ∧
    handleDownloadSurface (DownloadOutcome.httpError status none)
      = some ("Download failed: " ++ ("Download error: " ++ toString status)) := by
  constructor
  · simp [handleDownloadSurface, downloadThrownMessage, jsOrString, hd]
  · rfl

theorem download_error_surface_witness :
    handleDownloadSurface (DownloadOutcome.httpError 500 (some "disk full"))
      = some ("Download failed: " ++ "disk full") ∧
    handleDownloadSurface (DownloadOutcome.httpError 500 none)
      = some ("Download failed: " ++ ("Download error: " ++ toString 500)) :=
  download_error_surface 500 "disk full" (by decide)

/-- When the scanned tail still contains a dot, the regex cannot match
there, so stripping distributes over the prefix. -/
theorem stripLastExtension_append (u v : List Char) (hv : '.' ∈ v) :
    stripLastExtension (u ++ v) = u ++ stripLastExtension v := by
  induction u with
  | nil => simp
  | cons c u ih =>
    have hall : (u ++ v).all (fun a => !(a == '.') && !(a == '/')) = false := by
      rw [List.all_eq_false]
      exact ⟨'.', List.mem_append_right _ hv, by simp⟩
    have htail : stripExtTailOk (u ++ v) = false := by
      simp [stripExtTailOk, hall]
    simp [stripLastExtension, htail, ih]

/-- Concatenation of strings concatenates their character lists. -/
theorem string_data_append (s t : String) : (s ++ t).data = s.data ++ t.data := by
  cases s
  cases t
  rfl

/-- The regex `\.[^/.]+$` removes a trailing `.ext` whose extension is
non-empty and contains neither a dot nor a slash, and nothing else. -/
theorem stripExt_strips_clean_extension (base ext : String) (hne : ext ≠ "")
    (hclean : ∀ c ∈ ext.data, c ≠ '.' ∧ c ≠ '/') :
    stripExt (base ++ "." ++ ext) = base := by
  have hdata : (base ++ "." ++ ext).data = base.data ++ ('.' :: ext.data) := by
    rw [string_data_append, string_data_append, List.append_assoc]
    rfl
  have hnil : ext.data ≠ [] := by
    intro h
    apply hne
    cases ext
    simp only at h
    subst h
    rfl
  have hok : stripExtTailOk ext.data = true := by
    simp [stripExtTailOk, hnil]
    intro c hc
    rcases hclean c hc with ⟨h1, h2⟩
    simp [h1, h2]
  unfold stripExt
  rw [hdata, stripLastExtension_append _ _ (by simp)]
  simp [stripLastExtension, hok]

/-- C8: for an original filename `<base>.<ext>` (extension non-empty,
free of dots and slashes), the `/download` payload's `filename` field
is `<base>_extracted` with no extension, and the saved file is named
`<base>_extracted.csv` when the requested format is `csv` and
`<base>_extracted.xlsx` for any other format (the source requests
`excel`). -/
theorem download_names (base ext format : String) (hne : ext ≠ "")
    (hclean : ∀ c ∈ ext.data, c ≠ '.' ∧ c ≠ '/') :
    downloadPayloadFilename (base ++ "." ++ ext) = base ++ "_extracted" ∧
    downloadedFileName (base ++ "." ++ ext) "csv"
      = base ++ "_extracted" ++ ".csv" ∧
    (format ≠ "csv" → downloadedFileName (base ++ "." ++ ext) format
      = base ++ "_extracted" ++ ".xlsx") := by
  have h := stripExt_strips_clean_extension base ext hne hclean
  refine ⟨?_, ?_, fun hf => ?_⟩
  · unfold downloadPayloadFilename
    rw [h]
  · unfold downloadedFileName downloadPayloadFilename
    rw [h, if_pos rfl]
  · unfold downloadedFileName downloadPayloadFilename
    rw [h, if_neg hf]

theorem download_names_witness :
    downloadPayloadFilename ("report" ++ "." ++ "csv") = "report" ++ "_extracted" ∧
    downloadedFileName ("report" ++ "." ++ "csv") "csv"
      = "report" ++ "_extracted" ++ ".csv" ∧
    ("excel" ≠ "csv" → downloadedFileName ("report" ++ "." ++ "csv") "excel"
      = "report" ++ "_extracted" ++ ".xlsx") :=
  download_names "report" "csv" "excel" (by decide) (by decide)

end AutoDashAI
